import Mathlib

/-!
Dotnity: client-side page scripts (`src/js/script.js`).

A shallow embedding of the event handlers of `script.js`.  DOM elements are
records holding the attributes and inline-style properties the script reads
or writes; every handler is a function from page state to page state.

* strings are Lean strings; `===` on strings is equality,
* `window.scrollY` is a finite double, embedded in `ℚ` (comparison with a
  literal is exact there); `innerWidth`, `innerHeight`, `scrollHeight` are
  integers,
* `getAttribute` returns `null` for a missing attribute: `Option String`,
* `setTimeout` appends to a queue of pending timers with a virtual clock,
* the external Bootstrap library is a parameter of the model.
-/

namespace Dotnity

/-! ## Strings -/

/-- The method `s.split(sep)` for a one-character separator, on the list of
characters: the result is never empty and keeps empty segments. -/
def jsSplit (sep : Char) : List Char → List (List Char)
  | [] => [[]]
  | c :: cs =>
    if c = sep then [] :: jsSplit sep cs
    else
      match jsSplit sep cs with
      | [] => [[c]]
      | seg :: rest => (c :: seg) :: rest

/-- The method `s.split(sep)` on strings. -/
def split (s : String) (sep : Char) : List String :=
  (jsSplit sep s.data).map String.mk

/-- The call `arr.pop()` read as a value: the last element, `undefined` on `[]`. -/
def pop (arr : List String) : Option String :=
  arr.getLast?

/-- The expression `x || dflt` for `x` a string or `undefined`: the empty string and
`undefined` are falsy. -/
def orElse (x : Option String) (dflt : String) : String :=
  match x with
  | none => dflt
  | some s => if s = "" then dflt else s

/-! ## Scroll-driven state -/

/-- The element `nav.navbar`: the two inline-style properties the scroll
listener writes, and the rest of its inline style. -/
structure Navbar where
  boxShadow : String
  backgroundColor : String
  otherStyle : List (String × String)
deriving DecidableEq, Repr

/-- An `a.nav-link` anchor: its `href` attribute and `style.color`. -/
structure NavLink where
  href : Option String
  color : String
deriving DecidableEq, Repr

/-- The `a#back-to-top` element created by `initBackToTop`. -/
structure BackToTop where
  display : String
  transform : String
deriving DecidableEq, Repr

/-- The listeners the script registers for the window `scroll` event. -/
inductive ScrollListener where
  | navbarEffect
  | updateActiveNavLink
  | backToTopToggle
deriving DecidableEq, Repr

/-- The part of the page read and written by the scroll handlers. -/
structure Page where
  pathname : String
  scrollY : ℚ
  innerHeight : Int
  scrollHeight : Int
  navbar : Option Navbar
  navLinks : List NavLink
  backToTopBtn : Option BackToTop
  scrollListeners : List ScrollListener

/-- The shadow written past the 50px threshold. -/
def emphasizedShadow : String :=
  "0 4px 6px -1px rgba(0, 0, 0, 0.1), 0 2px 4px -2px rgba(0, 0, 0, 0.1)"

/-- Body of the first scroll listener of `initNavbarScroll`. -/
def navbarScroll (scrollY : ℚ) (navbar : Navbar) : Navbar :=
  if scrollY > 50 then
    { navbar with boxShadow := emphasizedShadow,
                  backgroundColor := "rgba(255, 255, 255, 0.98)" }
  else
    { navbar with boxShadow := "none",
                  backgroundColor := "rgba(255, 255, 255, 0.95)" }

/-- The expression `window.location.pathname.split('/').pop() || 'index.html'`. -/
def currentPage (pathname : String) : String :=
  orElse (pop (split pathname '/')) "index.html"

/-- The `isActive` expression of `updateActiveNavLink`. -/
def isActive (href : Option String) (currentPage : String) : Bool :=
  (href == some currentPage) || (currentPage == "" && href == some "index.html")

/-- Body of the `forEach` of `updateActiveNavLink`. -/
def markLink (currentPage : String) (link : NavLink) : NavLink :=
  if isActive link.href currentPage then
    { link with color := "var(--color-primary)" }
  else
    { link with color := "" }

/-- The loop of `updateActiveNavLink` on the list of `a.nav-link` anchors. -/
def updateActiveNavLinks (pathname : String) (navLinks : List NavLink) : List NavLink :=
  navLinks.map (markLink (currentPage pathname))

/-- The function `updateActiveNavLink()`. -/
def updateActiveNavLink (p : Page) : Page :=
  { p with navLinks := updateActiveNavLinks p.pathname p.navLinks }

/-- The function `setActiveNavLink()`: computes `currentPage`, then calls
`updateActiveNavLink`. -/
def setActiveNavLink (p : Page) : Page :=
  updateActiveNavLink p

/-- Body of the scroll listener of `initBackToTop`. -/
def backToTopScroll (scrollY : ℚ) (btn : BackToTop) : BackToTop :=
  if scrollY > 300 then { btn with display := "flex" }
  else { btn with display := "none" }

/-- Runs one registered scroll listener. -/
def runScrollListener (p : Page) : ScrollListener → Page
  | .navbarEffect => { p with navbar := p.navbar.map (navbarScroll p.scrollY) }
  | .updateActiveNavLink => updateActiveNavLink p
  | .backToTopToggle => { p with backToTopBtn := p.backToTopBtn.map (backToTopScroll p.scrollY) }

/-- A `scroll` event at vertical offset `y`: every registered listener runs,
in registration order. -/
def scrollEvent (p : Page) (y : ℚ) : Page :=
  p.scrollListeners.foldl runScrollListener { p with scrollY := y }

/-- The function `initNavbarScroll()`: nothing is registered without a navbar. -/
def initNavbarScroll (p : Page) : Page :=
  match p.navbar with
  | none => p
  | some _ =>
    { p with scrollListeners :=
        p.scrollListeners ++ [.navbarEffect, .updateActiveNavLink] }

/-- The function `initBackToTop()`: creates the control with `display: none` and registers
its scroll listener. -/
def initBackToTop (p : Page) : Page :=
  { p with backToTopBtn := some { display := "none", transform := "" },
           scrollListeners := p.scrollListeners ++ [.backToTopToggle] }

/-- Top level of the script: the back-to-top control is initialised only
when the page has enough content. -/
def scriptLoad (p : Page) : Page :=
  if p.scrollHeight > p.innerHeight * 2 then initBackToTop p else p

/-- The scroll-related part of the `DOMContentLoaded` handler. -/
def domContentLoaded (p : Page) : Page :=
  setActiveNavLink (initNavbarScroll p)

/-- A link is marked active when it carries the active colour. -/
def NavLink.active (l : NavLink) : Bool :=
  l.color == "var(--color-primary)"

/-- The navbar is in the flat state. -/
def Navbar.flat (n : Navbar) : Prop :=
  n.boxShadow = "none" ∧ n.backgroundColor = "rgba(255, 255, 255, 0.95)"

/-- The navbar is in the emphasized state. -/
def Navbar.emphasized (n : Navbar) : Prop :=
  n.boxShadow = emphasizedShadow ∧ n.backgroundColor = "rgba(255, 255, 255, 0.98)"


/-! ## Scroll reveal (`initScrollAnimations`) -/

/-- Inline style of an element matched by
`.card, [data-category], .feature-item, .social-link`. -/
structure RevealStyle where
  opacity : String
  transform : String
  transition : String
deriving DecidableEq, Repr

/-- An `IntersectionObserverEntry`: the target element (its identifier) and
whether it intersects. -/
structure IntersectionEntry where
  target : Nat
  isIntersecting : Bool
deriving DecidableEq, Repr

/-- The elements of the document, by identifier, with the targets the
observer currently watches. -/
structure RevealState where
  style : Nat → RevealStyle
  observed : List Nat

/-- The transition written on every element to animate. -/
def revealTransition : String :=
  "opacity 0.6s cubic-bezier(0.4, 0, 0.2, 1), transform 0.6s cubic-bezier(0.4, 0, 0.2, 1)"

/-- The method `observer.observe(target)`: a target already watched is not added again. -/
def observe (observed : List Nat) (target : Nat) : List Nat :=
  if target ∈ observed then observed else observed ++ [target]

/-- The method `observer.unobserve(target)`. -/
def unobserve (observed : List Nat) (target : Nat) : List Nat :=
  observed.filter (fun t => t ≠ target)

/-- Body of `elementsToAnimate.forEach` in `initScrollAnimations`. -/
def prepareElement (s : RevealState) (element : Nat) : RevealState :=
  { style := Function.update s.style element
      { opacity := "0", transform := "translateY(20px)", transition := revealTransition },
    observed := observe s.observed element }

/-- The function `initScrollAnimations()`, given the result of the
`querySelectorAll`. -/
def initScrollAnimations (s : RevealState) (elementsToAnimate : List Nat) : RevealState :=
  elementsToAnimate.foldl prepareElement s

/-- Body of `entries.forEach` in the observer callback. -/
def handleEntry (s : RevealState) (entry : IntersectionEntry) : RevealState :=
  if entry.isIntersecting then
    { style := Function.update s.style entry.target
        { s.style entry.target with opacity := "1", transform := "translateY(0)" },
      observed := unobserve s.observed entry.target }
  else s

/-- The observer callback on one batch of entries. -/
def observerCallback (s : RevealState) (entries : List IntersectionEntry) : RevealState :=
  entries.foldl handleEntry s

/-- The state after the first `k` batches have been delivered. -/
def revealAfter (s : RevealState) (elementsToAnimate : List Nat)
    (batches : List (List IntersectionEntry)) (k : Nat) : RevealState :=
  (batches.take k).foldl observerCallback (initScrollAnimations s elementsToAnimate)

/-- The element is in the hidden state. -/
def RevealState.hidden (s : RevealState) (e : Nat) : Prop :=
  (s.style e).opacity = "0" ∧ (s.style e).transform = "translateY(20px)"

/-- The element is in the visible state. -/
def RevealState.visible (s : RevealState) (e : Nat) : Prop :=
  (s.style e).opacity = "1" ∧ (s.style e).transform = "translateY(0)"

instance (s : RevealState) (e : Nat) : Decidable (s.hidden e) := by
  unfold RevealState.hidden; infer_instance

instance (s : RevealState) (e : Nat) : Decidable (s.visible e) := by
  unfold RevealState.visible; infer_instance

/-! ## Offcanvas guard (`initOffcanvasGuard`) -/

/-- The element `.offcanvas`: its class list and `style.visibility`. -/
structure Offcanvas where
  classList : List String
  visibility : String
deriving DecidableEq, Repr

/-- Calls made into the Bootstrap library. -/
inductive ApiCall where
  | getInstance
  | construct
  | hide (instance_ : Nat)
deriving DecidableEq, Repr

/-- What a call into the library leaves behind: the panel as the call left
it and the value returned, `none` when the call threw. -/
structure Outcome (α : Type) where
  panel : Offcanvas
  result : Option α

/-- The member `bootstrap.Offcanvas`, as far as the guard uses it.  The
library is not part of the repository: its behaviour is a parameter.
Instances are identified by a number; `getInstance` returns `null`
(`some none`) or an instance. -/
structure OffcanvasApi where
  getInstance : Offcanvas → Outcome (Option Nat)
  construct : Offcanvas → Outcome Nat
  hide : Nat → Offcanvas → Outcome Unit

/-- The global `bootstrap`: its member `Offcanvas`, `none` when the global
is defined without it. -/
structure Bootstrap where
  offcanvas : Option OffcanvasApi

/-- The state the guard works on; `calls` records the library calls made. -/
structure GuardState where
  innerWidth : Int
  offcanvasEl : Option Offcanvas
  bootstrap : Option Bootstrap
  calls : List ApiCall
  resizeGuard : Bool

/-- The method `classList.remove(token)`. -/
def classListRemove (classList : List String) (token : String) : List String :=
  classList.filter (fun c => c ≠ token)

/-- The method `classList.add(token)`. -/
def classListAdd (classList : List String) (token : String) : List String :=
  if token ∈ classList then classList else classList ++ [token]

/-- The two statements shared by the `catch` block and the `else` branch. -/
def forceHide (el : Offcanvas) : Offcanvas :=
  { classList := classListRemove el.classList "show", visibility := "hidden" }

/-- The `try` block of `enforceClosed`: the panel after it, the calls made,
and whether it threw.  Reading `getInstance` off a missing
`bootstrap.Offcanvas` throws before any call is made. -/
def tryHide (bs : Bootstrap) (el : Offcanvas) : Offcanvas × List ApiCall × Bool :=
  match bs.offcanvas with
  | none => (el, [], true)
  | some api =>
    let r1 := api.getInstance el
    match r1.result with
    | none => (r1.panel, [.getInstance], true)
    | some (some bsOff) =>
      let r3 := api.hide bsOff r1.panel
      (r3.panel, [.getInstance, .hide bsOff], r3.result.isNone)
    | some none =>
      let r2 := api.construct r1.panel
      match r2.result with
      | none => (r2.panel, [.getInstance, .construct], true)
      | some bsOff =>
        let r3 := api.hide bsOff r2.panel
        (r3.panel, [.getInstance, .construct, .hide bsOff], r3.result.isNone)

/-- The function `enforceClosed()`. -/
def enforceClosed (g : GuardState) : GuardState :=
  if g.innerWidth ≥ 1024 then
    match g.offcanvasEl with
    | some el =>
      match g.bootstrap with
      | some bs =>
        match tryHide bs el with
        | (el1, calls, true) =>
          { g with offcanvasEl := some (forceHide el1), calls := g.calls ++ calls }
        | (el1, calls, false) =>
          { g with offcanvasEl := some el1, calls := g.calls ++ calls }
      | none => { g with offcanvasEl := some (forceHide el) }
    | none => g
  else g

/-- The function `initOffcanvasGuard()`. -/
def initOffcanvasGuard (g : GuardState) : GuardState :=
  { enforceClosed g with resizeGuard := true }

/-- A window `resize` event to the given width. -/
def resizeEvent (g : GuardState) (width : Int) : GuardState :=
  if g.resizeGuard then enforceClosed { g with innerWidth := width }
  else { g with innerWidth := width }

/-! ## Contact form (`initFormValidation`, `handleFormSubmit`) -/

/-- White space and line terminators, the characters `trim()` strips. -/
def isTrimChar (c : Char) : Bool :=
  c.val = 0x09 || c.val = 0x0A || c.val = 0x0B || c.val = 0x0C || c.val = 0x0D ||
  c.val = 0x20 || c.val = 0xA0 || c.val = 0x1680 ||
  (0x2000 ≤ c.val && c.val ≤ 0x200A) ||
  c.val = 0x2028 || c.val = 0x2029 || c.val = 0x202F || c.val = 0x205F ||
  c.val = 0x3000 || c.val = 0xFEFF

/-- The method `s.trim()`. -/
def trim (s : String) : String :=
  String.mk ((s.data.dropWhile isTrimChar).reverse.dropWhile isTrimChar).reverse

/-- A form control: name, current and default value, the `required`
attribute, and the two style properties `setFieldError` writes. -/
structure Field where
  name : String
  value : String
  defaultValue : String
  required : Bool
  borderColor : String
  backgroundColor : String
deriving DecidableEq, Repr

/-- The element `button[type="submit"]` of the form. -/
structure SubmitButton where
  innerHTML : String
  disabled : Bool
  backgroundColor : String
deriving DecidableEq, Repr

/-- A toast created by `showNotification`: the variable parts of its style
and its text. -/
structure Notification where
  id : Nat
  background : String
  animation : String
  textContent : String
deriving DecidableEq, Repr

/-- The callbacks the script passes to `setTimeout`, with the variables they
close over. -/
inductive TimerCallback where
  | messageSent (originalText : String)
  | resetForm (originalText : String)
  | fadeNotification (id : Nat)
  | removeNotification (id : Nat)
deriving DecidableEq, Repr

/-- A pending timer: the time it is due and its callback. -/
structure Timer where
  due : Nat
  callback : TimerCallback
deriving DecidableEq, Repr

/-- The contact page: clock (ms), the controls of `#contactForm`, the result
of `form.querySelector('button[type="submit"]')` (`none` for `null`), the
toasts in the body, pending timers. -/
structure FormPage where
  now : Nat
  fields : List Field
  submitButton : Option SubmitButton
  notifications : List Notification
  nextId : Nat
  timers : List Timer
deriving DecidableEq, Repr

/-- The function `setFieldError(field, hasError)`. -/
def setFieldError (field : Field) (hasError : Bool) : Field :=
  if hasError then
    { field with borderColor := "var(--color-error)",
                 backgroundColor := "rgba(239, 68, 68, 0.05)" }
  else
    { field with borderColor := "var(--color-gray-300)",
                 backgroundColor := "var(--color-white)" }

/-- The call `setTimeout(callback, delay)`. -/
def setTimeout (p : FormPage) (callback : TimerCallback) (delay : Nat) : FormPage :=
  { p with timers := p.timers ++ [{ due := p.now + delay, callback := callback }] }

/-- The function `showNotification(message, type)`. -/
def showNotification (p : FormPage) (message : String) (type : String) : FormPage :=
  let notification : Notification :=
    { id := p.nextId,
      background := if type = "success" then "var(--color-success)" else "var(--color-info)",
      animation := "slideInRight 0.3s ease-out",
      textContent := message }
  setTimeout
    { p with notifications := p.notifications ++ [notification], nextId := p.nextId + 1 }
    (.fadeNotification notification.id) 3000

/-- Label of the button while the submission is simulated. -/
def sendingLabel : String := "<i class=\"bi bi-check-circle\"></i> Sending..."

/-- Label of the button once the first timer has fired. -/
def successLabel : String := "<i class=\"bi bi-check-circle\"></i> Message Sent!"

/-- The function `handleFormSubmit(form)`.  Reading `innerHTML` of a missing
button throws a `TypeError` that nothing catches: `.error` carries the page
as it is at the throw. -/
def handleFormSubmit (p : FormPage) : Except FormPage FormPage :=
  match p.submitButton with
  | none => .error p
  | some submitButton =>
    let originalText := submitButton.innerHTML
    let sending : SubmitButton :=
      { submitButton with disabled := true, innerHTML := sendingLabel }
    .ok (setTimeout { p with submitButton := some sending } (.messageSent originalText) 1500)

/-- Body of `requiredFields.forEach` in the submit listener: the field after
`setFieldError`, and whether it is valid. -/
def checkField (field : Field) : Field × Bool :=
  if field.required then
    let value := trim field.value
    if value = "" then (setFieldError field true, false)
    else (setFieldError field false, true)
  else (field, true)

/-- The `submit` listener of `#contactForm`: `.ok` is the page after the
listener returned, `.error` the page left behind by an uncaught exception
(the field styles written by `setFieldError` stay). -/
def submitHandler (p : FormPage) : Except FormPage FormPage :=
  let checked := p.fields.map checkField
  let isValid := checked.all (fun c => c.2)
  let p1 := { p with fields := checked.map (fun c => c.1) }
  if isValid then handleFormSubmit p1 else .ok p1

/-- The method `form.reset()`: every control goes back to its default value. -/
def formReset (fields : List Field) : List Field :=
  fields.map (fun f => { f with value := f.defaultValue })

/-- Runs a timer callback. -/
def runCallback (p : FormPage) : TimerCallback → FormPage
  | .messageSent originalText =>
    let p1 := { p with submitButton := p.submitButton.map (fun b =>
      { b with innerHTML := successLabel, backgroundColor := "var(--color-success)" }) }
    let p2 := showNotification p1 "Thank you! We'll get back to you soon." "success"
    setTimeout p2 (.resetForm originalText) 2000
  | .resetForm originalText =>
    { p with fields := formReset p.fields,
             submitButton := p.submitButton.map (fun b =>
               { b with disabled := false, innerHTML := originalText, backgroundColor := "" }) }
  | .fadeNotification id =>
    setTimeout
      { p with notifications := p.notifications.map (fun n =>
          if n.id = id then { n with animation := "fadeIn 0.3s ease-out reverse" } else n) }
      (.removeNotification id) 300
  | .removeNotification id =>
    { p with notifications := p.notifications.filter (fun n => n.id ≠ id) }

/-- The pending timer that fires next: the earliest due, the first
registered among equals. -/
def nextTimer : List Timer → Option Timer
  | [] => none
  | t :: ts =>
    match nextTimer ts with
    | none => some t
    | some u => if u.due < t.due then some u else some t

/-- The event loop fires the next pending timer, if any: the clock moves to
its due time, the timer leaves the queue and its callback runs. -/
def fireNext (p : FormPage) : Option FormPage :=
  match nextTimer p.timers with
  | none => none
  | some t =>
    some (runCallback { p with now := max p.now t.due, timers := p.timers.erase t } t.callback)

/-! ## Portfolio filter (`initPortfolioFiltering`) -/

/-- A `.filter-btn` button: its `data-filter` attribute and class list. -/
structure FilterButton where
  dataFilter : Option String
  classList : List String
deriving DecidableEq, Repr

/-- An element carrying `data-category`: the attribute and the two style
properties the click listener writes. -/
structure ProjectItem where
  dataCategory : String
  display : String
  animation : String
deriving DecidableEq, Repr

/-- The two node lists queried by `initPortfolioFiltering`. -/
structure Portfolio where
  filterButtons : List FilterButton
  projectItems : List ProjectItem
deriving DecidableEq, Repr

/-- Applies a function to the element at an index. -/
def modifyAt {α : Type} (f : α → α) : Nat → List α → List α
  | _, [] => []
  | 0, x :: xs => f x :: xs
  | n + 1, x :: xs => x :: modifyAt f n xs

/-- The expression `shouldShow` of the click listener. -/
def shouldShow (selectedFilter : Option String) (item : ProjectItem) : Bool :=
  let categories := split item.dataCategory ' '
  selectedFilter == some "all" ||
    (match selectedFilter with
     | some f => categories.contains f
     | none => false)

/-- Body of `projectItems.forEach` in the click listener. -/
def filterItem (selectedFilter : Option String) (item : ProjectItem) : ProjectItem :=
  if shouldShow selectedFilter item then
    { item with display := "block", animation := "fadeIn 0.5s ease-out" }
  else
    { item with display := "none" }

/-- The click listener of the filter button at position `i` of
`filterButtons`. -/
def clickFilter (pf : Portfolio) (i : Nat) : Portfolio :=
  match pf.filterButtons[i]? with
  | none => pf
  | some this =>
    let selectedFilter := this.dataFilter
    let cleared := pf.filterButtons.map
      (fun btn => { btn with classList := classListRemove btn.classList "active" })
    { filterButtons := modifyAt
        (fun btn => { btn with classList := classListAdd btn.classList "active" }) i cleared,
      projectItems := pf.projectItems.map (filterItem selectedFilter) }

/-! ## Page load -/

/-- The page as the browser hands it to the script: no back-to-top control
and no scroll listener yet. -/
def freshPage (pathname : String) (innerHeight scrollHeight : Int)
    (navbar : Option Navbar) (navLinks : List NavLink) : Page :=
  { pathname := pathname, scrollY := 0, innerHeight := innerHeight,
    scrollHeight := scrollHeight, navbar := navbar, navLinks := navLinks,
    backToTopBtn := none, scrollListeners := [] }

/-- The script runs, then `DOMContentLoaded` fires. -/
def pageLoad (p : Page) : Page :=
  domContentLoaded (scriptLoad p)

/-- The back-to-top control is on screen: it exists and its `display` is
not `none`. -/
def Page.backToTopVisible (p : Page) : Bool :=
  match p.backToTopBtn with
  | some btn => btn.display != "none"
  | none => false

/-- Number of links marked active. -/
def activeCount (navLinks : List NavLink) : Nat :=
  (navLinks.filter NavLink.active).length

/-- A page too short for the back-to-top control: content height 1000 in a
viewport of height 800. -/
def shortPage : Page :=
  freshPage "/index.html" 800 1000 none []

/-- A long page with a navbar. -/
def longPage : Page :=
  freshPage "/work.html" 800 5000
    (some { boxShadow := "", backgroundColor := "", otherStyle := [("top", "0")] })
    [{ href := some "index.html", color := "" }, { href := some "work.html", color := "" }]

/-- A document whose elements all start with an empty inline style and an
observer that watches nothing yet. -/
def blankReveal : RevealState :=
  { style := fun _ => { opacity := "", transform := "", transition := "" }, observed := [] }

/-- A library whose `getInstance` finds no instance and whose constructor
throws. -/
def brokenBootstrap : Bootstrap :=
  { offcanvas := some
      { getInstance := fun el => { panel := el, result := some none },
        construct := fun el => { panel := el, result := none },
        hide := fun _ el => { panel := el, result := some () } } }

/-- A `bootstrap` global without the `Offcanvas` member. -/
def partialBootstrap : Bootstrap :=
  { offcanvas := none }

/-- A library that holds an instance for the panel and whose `hide` removes
the open class. -/
def workingBootstrap : Bootstrap :=
  { offcanvas := some
      { getInstance := fun el => { panel := el, result := some (some 7) },
        construct := fun el => { panel := el, result := some 8 },
        hide := fun _ el =>
          { panel := { el with classList := classListRemove el.classList "show" },
            result := some () } } }

/-- Bootstrap 5 on a panel that was not opened through it: `getInstance`
finds no instance, the constructor makes instance 0 in the not-shown state,
and `hide()` on an instance that is not shown returns at once, leaving the
element as it is. -/
def freshInstanceBootstrap : Bootstrap :=
  { offcanvas := some
      { getInstance := fun el => { panel := el, result := some none },
        construct := fun el => { panel := el, result := some 0 },
        hide := fun _ el => { panel := el, result := some () } } }

/-- An open panel. -/
def openPanel : Offcanvas :=
  { classList := ["offcanvas", "show"], visibility := "visible" }

/-- The guard state of a window of the given width showing the open panel. -/
def guardAt (width : Int) (bootstrap : Option Bootstrap) : GuardState :=
  { innerWidth := width, offcanvasEl := some openPanel, bootstrap := bootstrap,
    calls := [], resizeGuard := false }

/-- A contact form with two filled required fields and an optional one, at
time 100 with nothing pending. -/
def filledForm : FormPage :=
  { now := 100,
    fields := [⟨"name", "Ann", "", true, "", ""⟩, ⟨"message", " hi ", "", true, "", ""⟩,
               ⟨"phone", "", "", false, "", ""⟩],
    submitButton := some { innerHTML := "Send", disabled := false, backgroundColor := "" },
    notifications := [], nextId := 0, timers := [] }

/-- The filled contact form of `filledForm`, whose submit control does not
match `button[type="submit"]` (a `button` without the `type` attribute, or
an `input` of type `submit`): the selector finds nothing. -/
def buttonlessForm : FormPage :=
  { now := 100,
    fields := [⟨"name", "Ann", "", true, "", ""⟩, ⟨"message", " hi ", "", true, "", ""⟩,
               ⟨"phone", "", "", false, "", ""⟩],
    submitButton := none,
    notifications := [], nextId := 0, timers := [] }

/-- A work page with three filter buttons, the first one active, and three
projects. -/
def workPage : Portfolio :=
  { filterButtons := [⟨some "all", ["filter-btn", "active"]⟩, ⟨some "web", ["filter-btn"]⟩,
                      ⟨some "brand", ["filter-btn"]⟩],
    projectItems := [⟨"web design", "", ""⟩, ⟨"brand", "", ""⟩, ⟨"webapp", "block", ""⟩] }

/-! # Theorems -/

/-! ## Navbar and back-to-top -/

theorem navbarScroll_idem (y : ℚ) (n : Navbar) :
    navbarScroll y (navbarScroll y n) = navbarScroll y n := by
  unfold navbarScroll; split <;> rfl

theorem navbarScroll_absorb (y y' : ℚ) (n : Navbar) :
    navbarScroll y (navbarScroll y' n) = navbarScroll y n := by
  unfold navbarScroll; split <;> split <;> rfl

theorem backToTopScroll_absorb (y y' : ℚ) (b : BackToTop) :
    backToTopScroll y (backToTopScroll y' b) = backToTopScroll y b := by
  unfold backToTopScroll; split <;> split <;> rfl

/-- What a run of listeners at offset `y` does to the parts of the page the
scroll claims are about. -/
theorem foldl_runScrollListener (ls : List ScrollListener) (s : Page) :
    let r := ls.foldl runScrollListener s
    r.scrollY = s.scrollY ∧ r.scrollListeners = s.scrollListeners ∧
    r.pathname = s.pathname ∧ r.innerHeight = s.innerHeight ∧
    r.scrollHeight = s.scrollHeight ∧
    r.navbar = (if ScrollListener.navbarEffect ∈ ls
      then s.navbar.map (navbarScroll s.scrollY) else s.navbar) ∧
    r.backToTopBtn = (if ScrollListener.backToTopToggle ∈ ls
      then s.backToTopBtn.map (backToTopScroll s.scrollY) else s.backToTopBtn) := by
  induction ls generalizing s with
  | nil => simp
  | cons l ls ih =>
    have h := ih (runScrollListener s l)
    simp only [List.foldl_cons]
    obtain ⟨h1, h2, h3, h4, h5, h6, h7⟩ := h
    cases l
    · -- navbarEffect
      simp only [runScrollListener] at h1 h2 h3 h4 h5 h6 h7 ⊢
      refine ⟨h1, h2, h3, h4, h5, ?_, ?_⟩
      · rw [h6]
        cases hn : s.navbar <;> simp [navbarScroll_idem]
      · rw [h7]; simp
    · -- updateActiveNavLink
      simp only [runScrollListener, updateActiveNavLink] at h1 h2 h3 h4 h5 h6 h7 ⊢
      refine ⟨h1, h2, h3, h4, h5, ?_, ?_⟩
      · rw [h6]; simp
      · rw [h7]; simp
    · -- backToTopToggle
      simp only [runScrollListener] at h1 h2 h3 h4 h5 h6 h7 ⊢
      refine ⟨h1, h2, h3, h4, h5, ?_, ?_⟩
      · rw [h6]; simp
      · rw [h7]
        cases hb : s.backToTopBtn <;> simp [backToTopScroll_absorb]

/-- One scroll event. -/
theorem scrollEvent_spec (p : Page) (y : ℚ) :
    (scrollEvent p y).scrollListeners = p.scrollListeners ∧
    (scrollEvent p y).innerHeight = p.innerHeight ∧
    (scrollEvent p y).scrollHeight = p.scrollHeight ∧
    (scrollEvent p y).navbar = (if ScrollListener.navbarEffect ∈ p.scrollListeners
      then p.navbar.map (navbarScroll y) else p.navbar) ∧
    (scrollEvent p y).backToTopBtn = (if ScrollListener.backToTopToggle ∈ p.scrollListeners
      then p.backToTopBtn.map (backToTopScroll y) else p.backToTopBtn) := by
  have h := foldl_runScrollListener p.scrollListeners { p with scrollY := y }
  obtain ⟨_, h2, _, h4, h5, h6, h7⟩ := h
  exact ⟨h2, h4, h5, h6, h7⟩

/-- A sequence of scroll events ending at offset `y`. -/
theorem scrollEvents_spec (ys : List ℚ) (p : Page) (y : ℚ) :
    let q := (ys ++ [y]).foldl scrollEvent p
    q.scrollListeners = p.scrollListeners ∧
    q.navbar = (if ScrollListener.navbarEffect ∈ p.scrollListeners
      then p.navbar.map (navbarScroll y) else p.navbar) ∧
    q.backToTopBtn = (if ScrollListener.backToTopToggle ∈ p.scrollListeners
      then p.backToTopBtn.map (backToTopScroll y) else p.backToTopBtn) := by
  induction ys generalizing p with
  | nil =>
    obtain ⟨h1, _, _, h4, h5⟩ := scrollEvent_spec p y
    exact ⟨h1, h4, h5⟩
  | cons y' ys ih =>
    obtain ⟨h1, _, _, h4, h5⟩ := scrollEvent_spec p y'
    obtain ⟨i1, i2, i3⟩ := ih (scrollEvent p y')
    simp only [List.cons_append, List.foldl_cons] at i1 i2 i3 ⊢
    refine ⟨i1.trans h1, ?_, ?_⟩
    · rw [i2, h1, h4]
      split
      · cases p.navbar <;> simp [navbarScroll_absorb]
      · rfl
    · rw [i3, h1, h5]
      split
      · cases p.backToTopBtn <;> simp [backToTopScroll_absorb]
      · rfl

/-- C1: for every navbar and every prior style, after any sequence of scroll
events ending at offset `y` the handler registered by `initNavbarScroll`
leaves the navbar flat (no shadow, background 0.95) when `y ≤ 50` and
emphasized (shadow, background 0.98) when `y > 50`; the two properties are a
function of `y` alone and the rest of the style is untouched. -/
theorem navbar_state_after_scroll (p : Page) (navbar : Navbar) (ys : List ℚ) (y : ℚ)
    (h : p.navbar = some navbar) :
    ∃ m : Navbar,
      ((ys ++ [y]).foldl scrollEvent (initNavbarScroll p)).navbar = some m ∧
      m = { boxShadow := if y > 50 then emphasizedShadow else "none",
            backgroundColor :=
              if y > 50 then "rgba(255, 255, 255, 0.98)" else "rgba(255, 255, 255, 0.95)",
            otherStyle := navbar.otherStyle } ∧
      (y ≤ 50 → m.flat) ∧ (y > 50 → m.emphasized) := by
  have hreg : ScrollListener.navbarEffect ∈ (initNavbarScroll p).scrollListeners := by
    simp [initNavbarScroll, h]
  have hnav : (initNavbarScroll p).navbar = some navbar := by
    simp [initNavbarScroll, h]
  obtain ⟨_, h2, _⟩ := scrollEvents_spec ys (initNavbarScroll p) y
  refine ⟨navbarScroll y navbar, ?_, ?_, ?_, ?_⟩
  · rw [h2, if_pos hreg, hnav]; rfl
  · unfold navbarScroll; split <;> rfl
  · intro hy
    have : ¬ y > 50 := not_lt.mpr hy
    simp [navbarScroll, this, Navbar.flat]
  · intro hy
    simp [navbarScroll, hy, Navbar.emphasized]

theorem navbar_state_after_scroll_witness :
    ∃ m : Navbar,
      ((([10, 80, 50] : List ℚ) ++ [51]).foldl scrollEvent (initNavbarScroll longPage)).navbar
        = some m ∧ m.emphasized ∧ m.otherStyle = [("top", "0")] := by
  obtain ⟨m, h1, h2, _, h4⟩ :=
    navbar_state_after_scroll longPage
      { boxShadow := "", backgroundColor := "", otherStyle := [("top", "0")] }
      [10, 80, 50] 51 rfl
  exact ⟨m, h1, h4 (by decide), by rw [h2]⟩

/-- C2, as stated, fails: on a page whose content is not taller than twice
the viewport the control is never created, so past offset 300 nothing is
visible. -/
theorem backToTop_not_visible_on_short_page :
    ¬ ((400 : ℚ) > 300 → (scrollEvent (pageLoad shortPage) 400).backToTopVisible = true) := by
  intro h
  have h1 := h (by decide)
  revert h1
  decide

/-- C2, amended: when the page content is taller than twice the viewport at
script load, the control exists and after a scroll to offset `y` its display
is `none` for `y ≤ 300` and `flex` for `y > 300`; otherwise no control
exists.  It is visible exactly when both the page is that tall and
`y > 300`. -/
theorem backToTop_after_scroll (pathname : String) (innerHeight scrollHeight : Int)
    (navbar : Option Navbar) (navLinks : List NavLink) (ys : List ℚ) (y : ℚ) :
    ((ys ++ [y]).foldl scrollEvent
        (pageLoad (freshPage pathname innerHeight scrollHeight navbar navLinks))).backToTopBtn
      = (if scrollHeight > innerHeight * 2 then
          some { display := if y > 300 then "flex" else "none", transform := "" }
        else none) ∧
    (((ys ++ [y]).foldl scrollEvent
        (pageLoad (freshPage pathname innerHeight scrollHeight navbar navLinks))).backToTopVisible
      = true ↔ (scrollHeight > innerHeight * 2 ∧ y > 300)) := by
  obtain ⟨_, _, h3⟩ := scrollEvents_spec ys
    (pageLoad (freshPage pathname innerHeight scrollHeight navbar navLinks)) y
  have hbtn : ((ys ++ [y]).foldl scrollEvent
        (pageLoad (freshPage pathname innerHeight scrollHeight navbar navLinks))).backToTopBtn
      = (if scrollHeight > innerHeight * 2 then
          some { display := if y > 300 then "flex" else "none", transform := "" }
        else none) := by
    rw [h3]
    by_cases hg : scrollHeight > innerHeight * 2
    · cases navbar <;>
        by_cases hy : y > 300 <;>
        simp [pageLoad, domContentLoaded, setActiveNavLink, updateActiveNavLink,
          initNavbarScroll, scriptLoad, initBackToTop, freshPage, hg, hy, backToTopScroll]
    · cases navbar <;>
        simp [pageLoad, domContentLoaded, setActiveNavLink, updateActiveNavLink,
          initNavbarScroll, scriptLoad, initBackToTop, freshPage, hg]
  refine ⟨hbtn, ?_⟩
  unfold Page.backToTopVisible
  rw [hbtn]
  by_cases hg : scrollHeight > innerHeight * 2
  · by_cases hy : y > 300 <;> simp [hg, hy]
  · simp [hg]

/-! ## Active link -/

theorem jsSplit_ne_nil (sep : Char) (cs : List Char) : jsSplit sep cs ≠ [] := by
  cases cs with
  | nil => simp [jsSplit]
  | cons c cs =>
    unfold jsSplit
    split
    · simp
    · split <;> simp

/-- The last element of `jsSplit sep cs` is the part of `cs` after its last
separator: `cs` is a prefix that is empty or ends in the separator, followed
by a segment free of the separator. -/
theorem jsSplit_getLast (sep : Char) (cs : List Char) :
    ∃ pre seg : List Char,
      cs = pre ++ seg ∧ sep ∉ seg ∧ (jsSplit sep cs).getLast? = some seg ∧
      (pre = [] ∨ pre.getLast? = some sep) ∧
      (pre = [] → jsSplit sep cs = [seg]) ∧ (pre ≠ [] → 2 ≤ (jsSplit sep cs).length) := by
  induction cs with
  | nil => exact ⟨[], [], by simp, by simp, by simp [jsSplit], Or.inl rfl, by simp [jsSplit], by simp⟩
  | cons c cs ih =>
    obtain ⟨pre, seg, h1, h2, h3, h4, h5, h6⟩ := ih
    have hne := jsSplit_ne_nil sep cs
    by_cases hc : c = sep
    · refine ⟨c :: pre, seg, by simp [h1], h2, ?_, ?_, by simp, ?_⟩
      · simp only [jsSplit, hc, if_true]
        cases hj : jsSplit sep cs with
        | nil => exact absurd hj hne
        | cons s rest =>
          rw [hj] at h3
          rw [List.getLast?_cons_cons]; exact h3
      · right
        cases pre with
        | nil => simp [hc]
        | cons a as =>
          rcases h4 with h4 | h4
          · simp at h4
          · rw [List.getLast?_cons_cons]; exact h4
      · intro _
        simp only [jsSplit, hc, if_true, List.length_cons]
        have : 0 < (jsSplit sep cs).length := List.length_pos.mpr hne
        omega
    · cases pre with
      | nil =>
        have h5' := h5 rfl
        refine ⟨[], c :: seg, by simp [h1], ?_, ?_, Or.inl rfl, ?_, by simp⟩
        · simp only [List.mem_cons, not_or]
          exact ⟨fun h => hc h.symm, h2⟩
        · simp [jsSplit, hc, h5']
        · intro _; simp [jsSplit, hc, h5']
      | cons a as =>
        have h6' := h6 (by simp)
        refine ⟨c :: a :: as, seg, by simp [h1], h2, ?_, ?_, by simp, ?_⟩
        · simp only [jsSplit, hc, if_false]
          cases hj : jsSplit sep cs with
          | nil => exact absurd hj hne
          | cons s rest =>
            rw [hj] at h3 h6'
            cases rest with
            | nil => simp at h6'
            | cons r rs =>
              simp only [List.getLast?_cons_cons] at h3 ⊢
              exact h3
        · right
          rcases h4 with h4 | h4
          · simp at h4
          · rw [List.getLast?_cons_cons]; exact h4
        · intro _
          simp only [jsSplit, hc, if_false]
          cases hj : jsSplit sep cs with
          | nil => exact absurd hj hne
          | cons s rest =>
            rw [hj] at h6'
            simpa using h6'

theorem currentPage_eq (pathname : String) :
    ∃ pre seg : List Char,
      pathname.data = pre ++ seg ∧ '/' ∉ seg ∧ (pre = [] ∨ pre.getLast? = some '/') ∧
      currentPage pathname = if seg = [] then "index.html" else String.mk seg := by
  obtain ⟨pre, seg, h1, h2, h3, h4, _, _⟩ := jsSplit_getLast '/' pathname.data
  refine ⟨pre, seg, h1, h2, h4, ?_⟩
  unfold currentPage pop split
  rw [List.getLast?_map, h3]
  simp only [Option.map_some', orElse]
  by_cases hs : seg = []
  · subst hs; simp
  · have : String.mk seg ≠ "" := by
      intro h
      apply hs
      have := congrArg String.data h
      simpa using this
    simp [hs, this]

theorem isActive_iff (href : Option String) (pathname : String) :
    isActive href (currentPage pathname) = true ↔ href = some (currentPage pathname) := by
  obtain ⟨pre, seg, _, _, _, h⟩ := currentPage_eq pathname
  have hne : currentPage pathname ≠ "" := by
    rw [h]
    by_cases hs : seg = []
    · simp [hs]
    · simp only [hs, if_false]
      intro h'
      apply hs
      have := congrArg String.data h'
      simpa using this
  simp [isActive, hne]

theorem markLink_eq (pathname : String) (l : NavLink) :
    markLink (currentPage pathname) l =
      { href := l.href,
        color := if l.href = some (currentPage pathname) then "var(--color-primary)" else "" } := by
  unfold markLink
  by_cases h : l.href = some (currentPage pathname)
  · rw [if_pos ((isActive_iff _ _).mpr h), if_pos h]
  · rw [if_neg (fun h' => h ((isActive_iff _ _).mp h')), if_neg h]

theorem markLink_active (pathname : String) (l : NavLink) :
    (markLink (currentPage pathname) l).active = true ↔ l.href = some (currentPage pathname) := by
  rw [markLink_eq]
  by_cases h : l.href = some (currentPage pathname)
  · simp [h, NavLink.active]
  · simp [h, NavLink.active]

/-- C3: the current page identifier is the last `/`-separated segment of the
path, or `index.html` when that segment is empty; after
`updateActiveNavLink` each link keeps its href, carries the active colour
exactly when its href equals the identifier, and has its colour cleared
otherwise.  For `/work.html` with hrefs index.html, work.html, contact.html
only work.html is marked; for the root path index.html is marked. -/
theorem active_link_iff_href_is_current_page (pathname : String) (navLinks : List NavLink) :
    (∃ pre seg : List Char,
      pathname.data = pre ++ seg ∧ '/' ∉ seg ∧ (pre = [] ∨ pre.getLast? = some '/') ∧
      currentPage pathname = if seg = [] then "index.html" else String.mk seg) ∧
    updateActiveNavLinks pathname navLinks = navLinks.map (fun l =>
      { href := l.href,
        color := if l.href = some (currentPage pathname) then "var(--color-primary)" else "" }) ∧
    (∀ l : NavLink,
      (markLink (currentPage pathname) l).active = true ↔ l.href = some (currentPage pathname)) ∧
    updateActiveNavLinks "/work.html"
        [⟨some "index.html", ""⟩, ⟨some "work.html", ""⟩, ⟨some "contact.html", ""⟩]
      = [⟨some "index.html", ""⟩, ⟨some "work.html", "var(--color-primary)"⟩,
         ⟨some "contact.html", ""⟩] ∧
    updateActiveNavLinks "" [⟨some "index.html", ""⟩, ⟨some "work.html", "x"⟩]
      = [⟨some "index.html", "var(--color-primary)"⟩, ⟨some "work.html", ""⟩] ∧
    updateActiveNavLinks "/" [⟨some "index.html", ""⟩, ⟨some "work.html", "x"⟩]
      = [⟨some "index.html", "var(--color-primary)"⟩, ⟨some "work.html", ""⟩] := by
  refine ⟨currentPage_eq pathname, ?_, markLink_active pathname, by decide, by decide, by decide⟩
  unfold updateActiveNavLinks
  apply List.map_congr_left
  intro l _
  exact markLink_eq pathname l

/-- C4, as stated, fails: two links with the same href (the navbar and the
offcanvas menu both link to the home page) are both marked active. -/
theorem two_links_marked_active :
    ¬ (activeCount (updateActiveNavLinks "/index.html"
        [⟨some "index.html", ""⟩, ⟨some "work.html", ""⟩, ⟨some "index.html", ""⟩]) ≤ 1) := by
  decide

theorem activeCount_eq_zero (pathname : String) (navLinks : List NavLink)
    (h : currentPage pathname ∉ navLinks.filterMap (fun l => l.href)) :
    activeCount (updateActiveNavLinks pathname navLinks) = 0 := by
  unfold activeCount updateActiveNavLinks
  rw [List.length_eq_zero, List.filter_eq_nil_iff]
  intro l hl
  obtain ⟨l0, hl0, rfl⟩ := List.mem_map.mp hl
  rw [markLink_active]
  intro hh
  apply h
  rw [List.mem_filterMap]
  exact ⟨l0, hl0, hh⟩

/-- C4, amended: when the hrefs of the navigation links are pairwise
distinct, after `updateActiveNavLink` at most one link is marked active. -/
theorem at_most_one_active_link (pathname : String) (navLinks : List NavLink)
    (h : (navLinks.filterMap (fun l => l.href)).Nodup) :
    activeCount (updateActiveNavLinks pathname navLinks) ≤ 1 := by
  induction navLinks with
  | nil => simp [activeCount, updateActiveNavLinks]
  | cons l ls ih =>
    have hcons : activeCount (updateActiveNavLinks pathname (l :: ls)) =
        (if (markLink (currentPage pathname) l).active then 1 else 0) +
          activeCount (updateActiveNavLinks pathname ls) := by
      unfold activeCount updateActiveNavLinks
      simp only [List.map_cons, List.filter_cons]
      split <;> simp [Nat.add_comm]
    rw [hcons]
    cases hh : l.href with
    | none =>
      have hna : (markLink (currentPage pathname) l).active = false := by
        rw [Bool.eq_false_iff]; intro ha
        rw [markLink_active, hh] at ha
        exact Option.noConfusion ha
      rw [List.filterMap_cons, hh] at h
      simp only [hna, Bool.false_eq_true, if_false, Nat.zero_add]
      exact ih h
    | some a =>
      rw [List.filterMap_cons, hh] at h
      simp only at h
      obtain ⟨hnot, hnd⟩ := List.nodup_cons.mp h
      by_cases ha : (markLink (currentPage pathname) l).active = true
      · have hcp : a = currentPage pathname := by
          rw [markLink_active, hh] at ha
          exact Option.some.inj ha
        rw [activeCount_eq_zero pathname ls (hcp ▸ hnot)]
        simp [ha]
      · have ha' : (markLink (currentPage pathname) l).active = false := by
          rw [Bool.eq_false_iff]; exact ha
        simp only [ha', Bool.false_eq_true, if_false, Nat.zero_add]
        exact ih hnd

theorem at_most_one_active_link_witness :
    activeCount (updateActiveNavLinks "/work.html"
      [⟨some "index.html", ""⟩, ⟨some "work.html", ""⟩, ⟨none, "red"⟩, ⟨none, ""⟩]) ≤ 1 :=
  at_most_one_active_link "/work.html"
    [⟨some "index.html", ""⟩, ⟨some "work.html", ""⟩, ⟨none, "red"⟩, ⟨none, ""⟩] (by decide)

/-- C5: active-link resolution is idempotent: with the location unchanged,
running `updateActiveNavLink` twice gives the same page, and the same link
marking, as running it once, whatever colours the links had before. -/
theorem updateActiveNavLink_idempotent (p : Page) :
    updateActiveNavLink (updateActiveNavLink p) = updateActiveNavLink p ∧
    updateActiveNavLinks p.pathname (updateActiveNavLinks p.pathname p.navLinks)
      = updateActiveNavLinks p.pathname p.navLinks := by
  have h : updateActiveNavLinks p.pathname (updateActiveNavLinks p.pathname p.navLinks)
      = updateActiveNavLinks p.pathname p.navLinks := by
    unfold updateActiveNavLinks
    rw [List.map_map]
    apply List.map_congr_left
    intro l _
    simp only [Function.comp]
    rw [markLink_eq, markLink_eq]
  refine ⟨?_, h⟩
  unfold updateActiveNavLink
  simp only [h]

/-! ## Scroll reveal -/

theorem hidden_not_visible (s : RevealState) (e : Nat) (h : s.hidden e) : ¬ s.visible e := by
  intro hv
  have h1 := h.1
  rw [hv.1] at h1
  exact absurd h1 (by decide)

theorem mem_unobserve (observed : List Nat) (t e : Nat) :
    e ∈ unobserve observed t ↔ e ∈ observed ∧ e ≠ t := by
  simp [unobserve]

theorem mem_observe (observed : List Nat) (t e : Nat) :
    e ∈ observe observed t ↔ e ∈ observed ∨ e = t := by
  unfold observe
  split
  · constructor
    · exact Or.inl
    · rintro (h | h)
      · exact h
      · subst h; assumption
  · simp

theorem initScrollAnimations_hidden (targets : List Nat) (s : RevealState) (e : Nat)
    (h : e ∈ targets ∨ (s.hidden e ∧ e ∈ s.observed)) :
    (initScrollAnimations s targets).hidden e ∧ e ∈ (initScrollAnimations s targets).observed := by
  induction targets generalizing s with
  | nil =>
    rcases h with h | h
    · simp at h
    · exact h
  | cons t ts ih =>
    unfold initScrollAnimations
    rw [List.foldl_cons]
    apply ih
    by_cases hte : e = t
    · right
      subst hte
      refine ⟨?_, ?_⟩
      · simp [RevealState.hidden, prepareElement]
      · simp [prepareElement, mem_observe]
    · rcases h with h | h
      · rcases List.mem_cons.mp h with h | h
        · exact absurd h hte
        · exact Or.inl h
      · right
        refine ⟨?_, ?_⟩
        · simpa [RevealState.hidden, prepareElement, Function.update, hte] using h.1
        · simp [prepareElement, mem_observe, h.2]

/-- Effect of one entry on an element `e`. -/
theorem handleEntry_spec (s : RevealState) (entry : IntersectionEntry) (e : Nat) :
    (entry.target = e ∧ entry.isIntersecting = true →
      (handleEntry s entry).visible e ∧ e ∉ (handleEntry s entry).observed) ∧
    (¬ (entry.target = e ∧ entry.isIntersecting = true) →
      (handleEntry s entry).style e = s.style e ∧
      (e ∈ (handleEntry s entry).observed ↔ e ∈ s.observed)) := by
  constructor
  · rintro ⟨ht, hi⟩
    subst ht
    simp [handleEntry, hi, RevealState.visible, mem_unobserve]
  · intro hn
    by_cases hi : entry.isIntersecting = true
    · have hne : e ≠ entry.target := fun h => hn ⟨h.symm, hi⟩
      simp [handleEntry, hi, Function.update, hne, mem_unobserve]
    · simp [handleEntry, hi]

/-- Effect of one batch on an element `e`. -/
theorem observerCallback_spec (entries : List IntersectionEntry) (s : RevealState) (e : Nat) :
    ((∃ entry ∈ entries, entry.target = e ∧ entry.isIntersecting = true) →
      (observerCallback s entries).visible e ∧ e ∉ (observerCallback s entries).observed) ∧
    ((¬ ∃ entry ∈ entries, entry.target = e ∧ entry.isIntersecting = true) →
      (observerCallback s entries).style e = s.style e ∧
      (e ∈ (observerCallback s entries).observed ↔ e ∈ s.observed)) ∧
    (s.visible e ∧ e ∉ s.observed →
      (observerCallback s entries).visible e ∧ e ∉ (observerCallback s entries).observed) := by
  induction entries generalizing s with
  | nil =>
    refine ⟨?_, ?_, ?_⟩
    · rintro ⟨_, h, _⟩; simp at h
    · intro _; simp [observerCallback]
    · intro h; simpa [observerCallback] using h
  | cons x xs ih =>
    have hx := handleEntry_spec s x e
    obtain ⟨i1, i2, i3⟩ := ih (handleEntry s x)
    have hfold : observerCallback s (x :: xs) = observerCallback (handleEntry s x) xs := rfl
    rw [hfold]
    have keep : s.visible e ∧ e ∉ s.observed →
        (handleEntry s x).visible e ∧ e ∉ (handleEntry s x).observed := by
      intro hv
      by_cases hc : x.target = e ∧ x.isIntersecting = true
      · exact hx.1 hc
      · obtain ⟨h1, h2⟩ := hx.2 hc
        exact ⟨by simpa [RevealState.visible, h1] using hv.1, fun h => hv.2 (h2.mp h)⟩
    refine ⟨?_, ?_, fun hv => i3 (keep hv)⟩
    · rintro ⟨entry, hmem, ht, hi⟩
      by_cases hrest : ∃ entry ∈ xs, entry.target = e ∧ entry.isIntersecting = true
      · exact i1 hrest
      · rcases List.mem_cons.mp hmem with h | h
        · subst h
          exact i3 (hx.1 ⟨ht, hi⟩)
        · exact absurd ⟨entry, h, ht, hi⟩ hrest
    · intro hn
      have hnx : ¬ (x.target = e ∧ x.isIntersecting = true) :=
        fun h => hn ⟨x, List.mem_cons_self _ _, h⟩
      have hnxs : ¬ ∃ entry ∈ xs, entry.target = e ∧ entry.isIntersecting = true :=
        fun ⟨en, hm, h⟩ => hn ⟨en, List.mem_cons_of_mem _ hm, h⟩
      obtain ⟨a1, a2⟩ := i2 hnxs
      obtain ⟨b1, b2⟩ := hx.2 hnx
      exact ⟨a1.trans b1, a2.trans b2⟩

theorem revealAfter_succ (s : RevealState) (targets : List Nat)
    (batches : List (List IntersectionEntry)) (k : Nat) (b : List IntersectionEntry)
    (h : batches[k]? = some b) :
    revealAfter s targets batches (k + 1) =
      observerCallback (revealAfter s targets batches k) b := by
  unfold revealAfter
  rw [List.take_succ, List.foldl_append, h]
  rfl

theorem revealAfter_succ_of_none (s : RevealState) (targets : List Nat)
    (batches : List (List IntersectionEntry)) (k : Nat) (h : batches[k]? = none) :
    revealAfter s targets batches (k + 1) = revealAfter s targets batches k := by
  unfold revealAfter
  rw [List.take_succ, List.foldl_append, h]
  rfl

theorem revealAfter_visible_mono (s : RevealState) (targets : List Nat)
    (batches : List (List IntersectionEntry)) (e k j : Nat) (hkj : k ≤ j)
    (h : (revealAfter s targets batches k).visible e ∧
      e ∉ (revealAfter s targets batches k).observed) :
    (revealAfter s targets batches j).visible e ∧
      e ∉ (revealAfter s targets batches j).observed := by
  induction j with
  | zero =>
    have : k = 0 := Nat.le_zero.mp hkj
    subst this; exact h
  | succ j ih =>
    rcases Nat.lt_or_ge k (j + 1) with hlt | hge
    · have hj := ih (Nat.lt_succ_iff.mp hlt)
      cases hb : batches[j]? with
      | none => rw [revealAfter_succ_of_none _ _ _ _ hb]; exact hj
      | some b =>
        rw [revealAfter_succ _ _ _ _ _ hb]
        exact (observerCallback_spec b _ e).2.2 hj
    · have : k = j + 1 := Nat.le_antisymm hkj hge
      subst this; exact h

theorem revealAfter_invariant (s : RevealState) (targets : List Nat)
    (batches : List (List IntersectionEntry)) (e : Nat) (he : e ∈ targets) (k : Nat) :
    ((revealAfter s targets batches k).hidden e ∧ e ∈ (revealAfter s targets batches k).observed) ∨
    ((revealAfter s targets batches k).visible e ∧
      e ∉ (revealAfter s targets batches k).observed) := by
  induction k with
  | zero =>
    left
    simpa [revealAfter] using initScrollAnimations_hidden targets s e (Or.inl he)
  | succ k ih =>
    cases hb : batches[k]? with
    | none => rw [revealAfter_succ_of_none _ _ _ _ hb]; exact ih
    | some b =>
      rw [revealAfter_succ _ _ _ _ _ hb]
      obtain ⟨c1, c2, c3⟩ := observerCallback_spec b (revealAfter s targets batches k) e
      by_cases hex : ∃ entry ∈ b, entry.target = e ∧ entry.isIntersecting = true
      · exact Or.inr (c1 hex)
      · obtain ⟨d1, d2⟩ := c2 hex
        rcases ih with ih | ih
        · left
          exact ⟨by simpa [RevealState.hidden, d1] using ih.1, d2.mpr ih.2⟩
        · exact Or.inr (c3 ih)

theorem reveal_needs_entry (s : RevealState) (targets : List Nat)
    (batches : List (List IntersectionEntry)) (e k : Nat)
    (hh : (revealAfter s targets batches k).hidden e)
    (hv : (revealAfter s targets batches (k + 1)).visible e) :
    ∃ b entry, batches[k]? = some b ∧ entry ∈ b ∧ entry.target = e ∧
      entry.isIntersecting = true := by
  cases hb : batches[k]? with
  | none =>
    rw [revealAfter_succ_of_none _ _ _ _ hb] at hv
    exact absurd hv (hidden_not_visible _ _ hh)
  | some b =>
    rw [revealAfter_succ _ _ _ _ _ hb] at hv
    by_cases hex : ∃ entry ∈ b, entry.target = e ∧ entry.isIntersecting = true
    · obtain ⟨entry, hm, ht, hi⟩ := hex
      exact ⟨b, entry, rfl, hm, ht, hi⟩
    · obtain ⟨d1, _⟩ := (observerCallback_spec b (revealAfter s targets batches k) e).2.1 hex
      have : (observerCallback (revealAfter s targets batches k) b).hidden e := by
        simpa [RevealState.hidden, d1] using hh
      exact absurd hv (hidden_not_visible _ _ this)

/-- C6: an element put under observation by `initScrollAnimations` starts
hidden and observed; after any number of callback batches it is either
hidden and observed or visible and no longer observed; it turns from hidden
to visible only in a batch holding an intersecting entry for it, and does so
in every such batch it is still hidden for; once visible it stays visible
and unobserved, so the hidden-to-visible step happens at most once. -/
theorem reveal_at_most_once (s : RevealState) (elementsToAnimate : List Nat)
    (batches : List (List IntersectionEntry)) (e : Nat) (he : e ∈ elementsToAnimate) :
    ((revealAfter s elementsToAnimate batches 0).hidden e ∧
      e ∈ (revealAfter s elementsToAnimate batches 0).observed) ∧
    (∀ k, ((revealAfter s elementsToAnimate batches k).hidden e ∧
          e ∈ (revealAfter s elementsToAnimate batches k).observed) ∨
        ((revealAfter s elementsToAnimate batches k).visible e ∧
          e ∉ (revealAfter s elementsToAnimate batches k).observed)) ∧
    (∀ k, (revealAfter s elementsToAnimate batches k).hidden e →
        (revealAfter s elementsToAnimate batches (k + 1)).visible e →
        ∃ b entry, batches[k]? = some b ∧ entry ∈ b ∧ entry.target = e ∧
          entry.isIntersecting = true) ∧
    (∀ k b entry, batches[k]? = some b → entry ∈ b → entry.target = e →
        entry.isIntersecting = true →
        (revealAfter s elementsToAnimate batches (k + 1)).visible e) ∧
    (∀ k j, k ≤ j → (revealAfter s elementsToAnimate batches k).visible e →
        (revealAfter s elementsToAnimate batches j).visible e ∧
        ¬ (revealAfter s elementsToAnimate batches j).hidden e ∧
        e ∉ (revealAfter s elementsToAnimate batches j).observed) ∧
    (∀ i j, (revealAfter s elementsToAnimate batches i).hidden e →
        (revealAfter s elementsToAnimate batches (i + 1)).visible e →
        (revealAfter s elementsToAnimate batches j).hidden e →
        (revealAfter s elementsToAnimate batches (j + 1)).visible e → i = j) := by
  have inv := revealAfter_invariant s elementsToAnimate batches e he
  have vis_unobs : ∀ k, (revealAfter s elementsToAnimate batches k).visible e →
      (revealAfter s elementsToAnimate batches k).visible e ∧
        e ∉ (revealAfter s elementsToAnimate batches k).observed := by
    intro k hv
    rcases inv k with h | h
    · exact absurd hv (hidden_not_visible _ _ h.1)
    · exact h
  have mono : ∀ k j, k ≤ j → (revealAfter s elementsToAnimate batches k).visible e →
      (revealAfter s elementsToAnimate batches j).visible e ∧
        e ∉ (revealAfter s elementsToAnimate batches j).observed :=
    fun k j hkj hv => revealAfter_visible_mono s elementsToAnimate batches e k j hkj (vis_unobs k hv)
  refine ⟨?_, inv, ?_, ?_, ?_, ?_⟩
  · rcases inv 0 with h | h
    · exact h
    · have := initScrollAnimations_hidden elementsToAnimate s e (Or.inl he)
      simpa [revealAfter] using this
  · exact fun k => reveal_needs_entry s elementsToAnimate batches e k
  · intro k b entry hb hm ht hi
    rw [revealAfter_succ _ _ _ _ _ hb]
    exact ((observerCallback_spec b _ e).1 ⟨entry, hm, ht, hi⟩).1
  · intro k j hkj hv
    obtain ⟨h1, h2⟩ := mono k j hkj hv
    exact ⟨h1, fun hh => hidden_not_visible _ _ hh h1, h2⟩
  · intro i j hi1 hi2 hj1 hj2
    rcases Nat.lt_trichotomy i j with h | h | h
    · exact absurd (mono (i + 1) j h hi2).1 (hidden_not_visible _ _ hj1)
    · exact h
    · exact absurd (mono (j + 1) i h hj2).1 (hidden_not_visible _ _ hi1)

theorem reveal_at_most_once_witness :
    (1 ∈ [0, 1, 2]) ∧
    (revealAfter blankReveal [0, 1, 2]
      [[⟨0, true⟩, ⟨1, false⟩], [⟨1, true⟩, ⟨1, false⟩], [⟨1, false⟩]] 0).hidden 1 ∧
    (revealAfter blankReveal [0, 1, 2]
      [[⟨0, true⟩, ⟨1, false⟩], [⟨1, true⟩, ⟨1, false⟩], [⟨1, false⟩]] 2).visible 1 ∧
    (revealAfter blankReveal [0, 1, 2]
      [[⟨0, true⟩, ⟨1, false⟩], [⟨1, true⟩, ⟨1, false⟩], [⟨1, false⟩]] 3).visible 1 ∧
    1 ∉ (revealAfter blankReveal [0, 1, 2]
      [[⟨0, true⟩, ⟨1, false⟩], [⟨1, true⟩, ⟨1, false⟩], [⟨1, false⟩]] 3).observed := by
  have h := reveal_at_most_once blankReveal [0, 1, 2]
    [[⟨0, true⟩, ⟨1, false⟩], [⟨1, true⟩, ⟨1, false⟩], [⟨1, false⟩]] 1 (by decide)
  obtain ⟨h0, _, _, h3, h4, _⟩ := h
  have hv := h3 1 [⟨1, true⟩, ⟨1, false⟩] ⟨1, true⟩ rfl (by decide) rfl rfl
  have hm := h4 2 3 (by decide) hv
  exact ⟨by decide, h0.1, hv, hm.1, hm.2.2⟩

/-! ## Offcanvas guard -/

theorem forceHide_closed (el : Offcanvas) :
    "show" ∉ (forceHide el).classList ∧ (forceHide el).visibility = "hidden" := by
  simp [forceHide, classListRemove]

/-- Without the `bootstrap` global, or when the `try` block throws, the
guard removes the `show` class and sets visibility to `hidden`. -/
theorem enforceClosed_fallback (g : GuardState) (el : Offcanvas)
    (hw : g.innerWidth ≥ 1024) (hel : g.offcanvasEl = some el)
    (h : g.bootstrap = none ∨ ∃ bs, g.bootstrap = some bs ∧ (tryHide bs el).2.2 = true) :
    ∃ el1 : Offcanvas, (enforceClosed g).offcanvasEl = some el1 ∧
      "show" ∉ el1.classList ∧ el1.visibility = "hidden" := by
  rcases h with hb | ⟨bs, hb, hthrew⟩
  · exact ⟨forceHide el, by simp [enforceClosed, hw, hel, hb],
      (forceHide_closed el).1, (forceHide_closed el).2⟩
  · rcases hres : tryHide bs el with ⟨el1, calls, threw⟩
    rw [hres] at hthrew
    simp only at hthrew
    subst hthrew
    exact ⟨forceHide el1, by simp [enforceClosed, hw, hel, hb, hres],
      (forceHide_closed el1).1, (forceHide_closed el1).2⟩

/-- When the `try` block returns, its last call was a `hide` that returned,
and the panel is exactly as that `hide` left it. -/
theorem tryHide_returns (bs : Bootstrap) (el : Offcanvas) (h : (tryHide bs el).2.2 = false) :
    ∃ (api : OffcanvasApi) (bsOff : Nat) (before : Offcanvas),
      bs.offcanvas = some api ∧ (api.hide bsOff before).result = some () ∧
      (tryHide bs el).1 = (api.hide bsOff before).panel ∧
      ApiCall.hide bsOff ∈ (tryHide bs el).2.1 := by
  unfold tryHide at h ⊢
  cases hapi : bs.offcanvas with
  | none => simp [hapi] at h
  | some api =>
    simp only [hapi] at h ⊢
    cases h1 : (api.getInstance el).result with
    | none => simp [h1] at h
    | some r =>
      cases r with
      | some bsOff =>
        simp only [h1] at h ⊢
        refine ⟨api, bsOff, (api.getInstance el).panel, rfl, ?_, rfl, by simp⟩
        cases hh : (api.hide bsOff (api.getInstance el).panel).result with
        | none => simp [hh] at h
        | some u => rfl
      | none =>
        simp only [h1] at h ⊢
        cases h2 : (api.construct (api.getInstance el).panel).result with
        | none => simp [h2] at h
        | some bsOff =>
          simp only [h2] at h ⊢
          refine ⟨api, bsOff, (api.construct (api.getInstance el).panel).panel, rfl, ?_, rfl,
            by simp⟩
          cases hh : (api.hide bsOff (api.construct (api.getInstance el).panel).panel).result with
          | none => simp [hh] at h
          | some u => rfl

/-- With the API present and nothing thrown, the guard itself never touches
the panel: it is left exactly as the library's `hide` left it. -/
theorem enforceClosed_structured (g : GuardState) (el : Offcanvas) (bs : Bootstrap)
    (hw : g.innerWidth ≥ 1024) (hel : g.offcanvasEl = some el) (hb : g.bootstrap = some bs)
    (hret : (tryHide bs el).2.2 = false) :
    ∃ (api : OffcanvasApi) (bsOff : Nat) (before : Offcanvas),
      bs.offcanvas = some api ∧ (api.hide bsOff before).result = some () ∧
      (enforceClosed g).offcanvasEl = some (api.hide bsOff before).panel ∧
      ApiCall.hide bsOff ∈ (enforceClosed g).calls := by
  obtain ⟨api, bsOff, before, h1, h2, h3, h4⟩ := tryHide_returns bs el hret
  refine ⟨api, bsOff, before, h1, h2, ?_, ?_⟩
  · rw [← h3]
    rcases hres : tryHide bs el with ⟨el1, calls, threw⟩
    rw [hres] at hret
    simp only at hret
    subst hret
    simp [enforceClosed, hw, hel, hb, hres]
  · rcases hres : tryHide bs el with ⟨el1, calls, threw⟩
    rw [hres] at hret h4
    simp only at hret h4
    subst hret
    simp [enforceClosed, hw, hel, hb, hres, h4]

/-- C7: the code at the failing input.  At width 1280 with an open panel
(class `show`) that has no Bootstrap instance, `enforceClosed` takes the API
path: `getInstance`, the constructor, then `hide` on the fresh instance,
which returns at once.  Nothing throws, the fallback does not run, and the
panel is left as it was, still carrying `show` and visible.  On the same
panel without the API, or with an API that throws, the fallback removes
`show` and hides it. -/
theorem enforceClosed_leaves_panel_open :
    (1280 : Int) ≥ 1024 ∧ "show" ∈ openPanel.classList ∧
    (enforceClosed (guardAt 1280 (some freshInstanceBootstrap))).calls =
      [.getInstance, .construct, .hide 0] ∧
    (enforceClosed (guardAt 1280 (some freshInstanceBootstrap))).offcanvasEl =
      some { classList := ["offcanvas", "show"], visibility := "visible" } ∧
    (enforceClosed (guardAt 1280 none)).offcanvasEl =
      some { classList := ["offcanvas"], visibility := "hidden" } ∧
    (enforceClosed (guardAt 1280 (some partialBootstrap))).offcanvasEl =
      some { classList := ["offcanvas"], visibility := "hidden" } ∧
    (enforceClosed (guardAt 1280 (some partialBootstrap))).calls = [] ∧
    (enforceClosed (guardAt 1280 (some brokenBootstrap))).offcanvasEl =
      some { classList := ["offcanvas"], visibility := "hidden" } := by
  refine ⟨by decide, by decide, ?_, ?_, ?_, ?_, ?_, ?_⟩ <;> decide

theorem resizeEvents_below (widths : List Int) (g : GuardState)
    (h : ∀ w ∈ widths, w < 1024) :
    (widths.foldl resizeEvent g).offcanvasEl = g.offcanvasEl ∧
    (widths.foldl resizeEvent g).calls = g.calls ∧
    (widths.foldl resizeEvent g).bootstrap = g.bootstrap := by
  induction widths generalizing g with
  | nil => simp
  | cons w ws ih =>
    have hw : w < 1024 := h w (List.mem_cons_self _ _)
    have hnw : ¬ w ≥ 1024 := not_le.mpr hw
    obtain ⟨i1, i2, i3⟩ := ih (resizeEvent g w) (fun x hx => h x (List.mem_cons_of_mem _ hx))
    rw [List.foldl_cons, i1, i2, i3]
    unfold resizeEvent
    split <;> simp [enforceClosed, hnw]

/-- C8: below a viewport width of 1024 `enforceClosed` takes no action: it
returns the state unchanged, and through the initial call and any sequence
of resize events to widths below 1024 the panel (class list and visibility)
stays as it was and no call into the panel-toggle API is made, whether or
not the panel is open. -/
theorem enforceClosed_below_breakpoint (g : GuardState) (widths : List Int)
    (h0 : g.innerWidth < 1024) (h : ∀ w ∈ widths, w < 1024) :
    enforceClosed g = g ∧
    (widths.foldl resizeEvent (initOffcanvasGuard g)).offcanvasEl = g.offcanvasEl ∧
    (widths.foldl resizeEvent (initOffcanvasGuard g)).calls = g.calls := by
  have hn : ¬ g.innerWidth ≥ 1024 := not_le.mpr h0
  have he : enforceClosed g = g := by simp [enforceClosed, hn]
  obtain ⟨i1, i2, _⟩ := resizeEvents_below widths (initOffcanvasGuard g) h
  refine ⟨he, ?_, ?_⟩
  · rw [i1]; simp [initOffcanvasGuard, he]
  · rw [i2]; simp [initOffcanvasGuard, he]

theorem enforceClosed_below_breakpoint_witness :
    ((1023 : Int) < 1024) ∧
    (([800, 1023, 320] : List Int).foldl resizeEvent
      (initOffcanvasGuard (guardAt 1023 (some workingBootstrap)))).offcanvasEl = some openPanel ∧
    (([800, 1023, 320] : List Int).foldl resizeEvent
      (initOffcanvasGuard (guardAt 1023 (some workingBootstrap)))).calls = [] := by
  have h := enforceClosed_below_breakpoint (guardAt 1023 (some workingBootstrap))
    [800, 1023, 320] (by decide) (by decide)
  exact ⟨by decide, h.2.1, h.2.2⟩

/-! ## Contact form -/

theorem checkField_valid (fields : List Field)
    (hv : ∀ f ∈ fields, f.required = true → trim f.value ≠ "") :
    (fields.map checkField).all (fun c => c.2) = true ∧
    (fields.map checkField).map (fun c => c.1) =
      fields.map (fun f => if f.required then setFieldError f false else f) := by
  induction fields with
  | nil => simp
  | cons f fs ih =>
    obtain ⟨i1, i2⟩ := ih (fun g hg => hv g (List.mem_cons_of_mem _ hg))
    have hf := hv f (List.mem_cons_self _ _)
    simp only [List.map_cons, List.all_cons, i1, i2, Bool.and_true]
    by_cases hr : f.required = true
    · simp [checkField, hr, hf hr]
    · simp [checkField, hr]

theorem formReset_value (fields : List Field) :
    (formReset fields).map (fun f => f.value) = fields.map (fun f => f.defaultValue) := by
  simp [formReset, Function.comp]

/-- On a contact form whose `button[type="submit"]` exists and whose
required fields are all non-blank, the submit handler disables the button
(label "Sending...") and schedules one timer 1500 ms ahead.  Whenever that
timer's callback runs, the button shows the success label, a notification is
added and a timer 2000 ms ahead is scheduled; whenever that second callback
runs, every field is reset to its default value, the button is enabled and
its label is the one it had before the submission.  With nothing else
pending, these are the next two timers to fire, at 1500 ms and at 3500 ms
after the submission. -/
theorem submission_timeline (p : FormPage) (btn : SubmitButton)
    (hb : p.submitButton = some btn)
    (hv : ∀ f ∈ p.fields, f.required = true → trim f.value ≠ "") :
    ∃ s1 : FormPage,
      submitHandler p = .ok s1 ∧
      s1.submitButton =
        some { innerHTML := sendingLabel, disabled := true,
               backgroundColor := btn.backgroundColor } ∧
      s1.timers = p.timers ++ [⟨p.now + 1500, .messageSent btn.innerHTML⟩] ∧
      s1.notifications = p.notifications ∧
      (∀ (q : FormPage) (b : SubmitButton), q.submitButton = some b →
        (runCallback q (.messageSent btn.innerHTML)).submitButton =
          some { innerHTML := successLabel, disabled := b.disabled,
                 backgroundColor := "var(--color-success)" } ∧
        (runCallback q (.messageSent btn.innerHTML)).notifications = q.notifications ++
          [⟨q.nextId, "var(--color-success)", "slideInRight 0.3s ease-out",
            "Thank you! We'll get back to you soon."⟩] ∧
        (runCallback q (.messageSent btn.innerHTML)).timers = q.timers ++
          [⟨q.now + 3000, .fadeNotification q.nextId⟩,
           ⟨q.now + 2000, .resetForm btn.innerHTML⟩]) ∧
      (∀ (r : FormPage) (b : SubmitButton), r.submitButton = some b →
        (runCallback r (.resetForm btn.innerHTML)).fields.map (fun f => f.value) =
          r.fields.map (fun f => f.defaultValue) ∧
        (runCallback r (.resetForm btn.innerHTML)).submitButton =
          some { innerHTML := btn.innerHTML, disabled := false, backgroundColor := "" }) ∧
      (p.timers = [] → ∃ s2 s3 : FormPage,
        fireNext s1 = some s2 ∧
        s2.now = p.now + 1500 ∧
        s2.submitButton =
          some { innerHTML := successLabel, disabled := true,
                 backgroundColor := "var(--color-success)" } ∧
        s2.notifications = p.notifications ++
          [⟨p.nextId, "var(--color-success)", "slideInRight 0.3s ease-out",
            "Thank you! We'll get back to you soon."⟩] ∧
        fireNext s2 = some s3 ∧
        s3.now = p.now + 1500 + 2000 ∧
        s3.fields.map (fun f => f.value) = p.fields.map (fun f => f.defaultValue) ∧
        s3.submitButton =
          some { innerHTML := btn.innerHTML, disabled := false, backgroundColor := "" }) := by
  obtain ⟨c1, c2⟩ := checkField_valid p.fields hv
  have hmax1 : max p.now (p.now + 1500) = p.now + 1500 := by omega
  have hmax2 : max (p.now + 1500) (p.now + 1500 + 2000) = p.now + 1500 + 2000 := by omega
  have hlt : p.now + 1500 + 2000 < p.now + 1500 + 3000 := by omega
  let checkedFields := p.fields.map (fun f => if f.required then setFieldError f false else f)
  let note : Notification :=
    ⟨p.nextId, "var(--color-success)", "slideInRight 0.3s ease-out",
      "Thank you! We'll get back to you soon."⟩
  let s1 : FormPage :=
    { now := p.now, fields := checkedFields,
      submitButton := some { innerHTML := sendingLabel, disabled := true,
                             backgroundColor := btn.backgroundColor },
      notifications := p.notifications, nextId := p.nextId,
      timers := p.timers ++ [⟨p.now + 1500, .messageSent btn.innerHTML⟩] }
  have h1 : submitHandler p = .ok s1 := by
    simp only [submitHandler, c1, if_true, c2, handleFormSubmit, hb, setTimeout]
  refine ⟨s1, h1, rfl, rfl, rfl, ?_, ?_, ?_⟩
  · intro q b hq
    simp [runCallback, setTimeout, showNotification, hq]
  · intro r b hr
    simp [runCallback, formReset, Function.comp, hr]
  · intro ht
    let s2 : FormPage :=
      { now := p.now + 1500, fields := checkedFields,
        submitButton := some { innerHTML := successLabel, disabled := true,
                               backgroundColor := "var(--color-success)" },
        notifications := p.notifications ++ [note], nextId := p.nextId + 1,
        timers := [⟨p.now + 1500 + 3000, .fadeNotification p.nextId⟩,
                   ⟨p.now + 1500 + 2000, .resetForm btn.innerHTML⟩] }
    let s3 : FormPage :=
      { now := p.now + 1500 + 2000, fields := formReset checkedFields,
        submitButton := some { innerHTML := btn.innerHTML, disabled := false,
                               backgroundColor := "" },
        notifications := p.notifications ++ [note], nextId := p.nextId + 1,
        timers := [⟨p.now + 1500 + 3000, .fadeNotification p.nextId⟩] }
    have h2 : fireNext s1 = some s2 := by
      simp [fireNext, nextTimer, s1, s2, runCallback, setTimeout, showNotification, hmax1,
        note, ht]
    have h3 : fireNext s2 = some s3 := by
      simp [fireNext, nextTimer, s2, s3, runCallback, hlt, hmax2, List.erase_cons]
    refine ⟨s2, s3, h2, rfl, rfl, rfl, h3, rfl, ?_, rfl⟩
    simp [s3, checkedFields, formReset, Function.comp]
    intro f _
    split <;> simp [setFieldError]

theorem submission_timeline_filledForm :
    ∃ s1 s2 s3 : FormPage,
      submitHandler filledForm = .ok s1 ∧ fireNext s1 = some s2 ∧ fireNext s2 = some s3 ∧
      s1.submitButton = some { innerHTML := sendingLabel, disabled := true, backgroundColor := "" } ∧
      s2.now = 1600 ∧ s3.now = 3600 ∧
      s3.submitButton = some { innerHTML := "Send", disabled := false, backgroundColor := "" } := by
  obtain ⟨s1, h1, h2, _, _, _, _, h7⟩ :=
    submission_timeline filledForm
      { innerHTML := "Send", disabled := false, backgroundColor := "" } rfl (by decide)
  obtain ⟨s2, s3, g1, g2, _, _, g5, g6, _, g8⟩ := h7 rfl
  exact ⟨s1, s2, s3, h1, g1, g5, h2, g2, g6, g8⟩

/-- C9: the code at the failing input.  The form has both required fields
filled, but its submit control is not matched by `button[type="submit"]`.
The submit listener validates the fields and colours them as valid, then
`handleFormSubmit` reads `innerHTML` of `null` and throws: the listener never
returns, no button is disabled, no timer is scheduled and no notification is
ever added.  With the button matched, the same form goes through the whole
timeline. -/
theorem submit_throws_without_matching_button :
    (∀ f ∈ buttonlessForm.fields, f.required = true → trim f.value ≠ "") ∧
    submitHandler buttonlessForm = .error
      { now := 100,
        fields := [⟨"name", "Ann", "", true, "var(--color-gray-300)", "var(--color-white)"⟩,
                   ⟨"message", " hi ", "", true, "var(--color-gray-300)", "var(--color-white)"⟩,
                   ⟨"phone", "", "", false, "", ""⟩],
        submitButton := none, notifications := [], nextId := 0, timers := [] } ∧
    (¬ ∃ s1 : FormPage, submitHandler buttonlessForm = .ok s1) ∧
    (∃ s1 : FormPage, submitHandler { buttonlessForm with
        submitButton := some { innerHTML := "Send", disabled := false, backgroundColor := "" } }
      = .ok s1 ∧
      s1.submitButton = some { innerHTML := sendingLabel, disabled := true, backgroundColor := "" } ∧
      s1.timers = [⟨1600, .messageSent "Send"⟩]) := by
  have hthrow : submitHandler buttonlessForm = .error
      { now := 100,
        fields := [⟨"name", "Ann", "", true, "var(--color-gray-300)", "var(--color-white)"⟩,
                   ⟨"message", " hi ", "", true, "var(--color-gray-300)", "var(--color-white)"⟩,
                   ⟨"phone", "", "", false, "", ""⟩],
        submitButton := none, notifications := [], nextId := 0, timers := [] } := by
    rfl
  refine ⟨by decide, hthrow, ?_, ?_⟩
  · rintro ⟨s1, h⟩
    rw [hthrow] at h
    exact Except.noConfusion h
  · exact ⟨_, rfl, rfl, rfl⟩

/-! ## Portfolio filter -/

theorem length_modifyAt {α : Type} (f : α → α) (i : Nat) (l : List α) :
    (modifyAt f i l).length = l.length := by
  induction l generalizing i with
  | nil => simp [modifyAt]
  | cons x xs ih =>
    cases i with
    | zero => simp [modifyAt]
    | succ n => simp [modifyAt, ih]

theorem getElem?_modifyAt {α : Type} (f : α → α) (i j : Nat) (l : List α) :
    (modifyAt f i l)[j]? = if j = i then l[j]?.map f else l[j]? := by
  induction l generalizing i j with
  | nil => simp [modifyAt]
  | cons x xs ih =>
    cases i with
    | zero =>
      cases j with
      | zero => simp [modifyAt]
      | succ m => simp [modifyAt]
    | succ n =>
      cases j with
      | zero => simp [modifyAt]
      | succ m => simp [modifyAt, ih]

theorem not_mem_classListRemove (classList : List String) (token : String) :
    token ∉ classListRemove classList token := by
  simp [classListRemove]

theorem mem_classListAdd (classList : List String) (token : String) :
    token ∈ classListAdd classList token := by
  unfold classListAdd
  split
  · assumption
  · simp

theorem shouldShow_iff (f : String) (item : ProjectItem) :
    shouldShow (some f) item = true ↔ (f = "all" ∨ f ∈ split item.dataCategory ' ') := by
  simp [shouldShow]

/-- C10: after a click on the filter button at position `i`, whose
`data-filter` is `f`, every project item is displayed (`block`) exactly when
`f` is `all` or one of the tokens of its `data-category` split at spaces,
and hidden (`none`) otherwise; the clicked button carries the `active` class
and no other filter button does. -/
theorem filter_click (pf : Portfolio) (i : Nat) (btn : FilterButton) (f : String)
    (hbtn : pf.filterButtons[i]? = some btn) (hf : btn.dataFilter = some f) :
    (clickFilter pf i).projectItems = pf.projectItems.map (fun item =>
      if f = "all" ∨ f ∈ split item.dataCategory ' ' then
        { item with display := "block", animation := "fadeIn 0.5s ease-out" }
      else { item with display := "none" }) ∧
    (∀ (k : Nat) (item : ProjectItem), (clickFilter pf i).projectItems[k]? = some item →
      ∃ old : ProjectItem, pf.projectItems[k]? = some old ∧ item.dataCategory = old.dataCategory ∧
        (item.display = "block" ↔ (f = "all" ∨ f ∈ split old.dataCategory ' ')) ∧
        (item.display = "none" ↔ ¬ (f = "all" ∨ f ∈ split old.dataCategory ' '))) ∧
    (clickFilter pf i).filterButtons.length = pf.filterButtons.length ∧
    (∀ (j : Nat) (b : FilterButton), (clickFilter pf i).filterButtons[j]? = some b →
      ("active" ∈ b.classList ↔ j = i)) := by
  have hitems : (clickFilter pf i).projectItems = pf.projectItems.map (fun item =>
      if f = "all" ∨ f ∈ split item.dataCategory ' ' then
        { item with display := "block", animation := "fadeIn 0.5s ease-out" }
      else { item with display := "none" }) := by
    simp only [clickFilter, hbtn, hf]
    apply List.map_congr_left
    intro item _
    unfold filterItem
    by_cases h : f = "all" ∨ f ∈ split item.dataCategory ' '
    · rw [if_pos ((shouldShow_iff f item).mpr h), if_pos h]
    · rw [if_neg (fun h' => h ((shouldShow_iff f item).mp h')), if_neg h]
  refine ⟨hitems, ?_, ?_, ?_⟩
  · intro k item hk
    rw [hitems, List.getElem?_map] at hk
    cases hold : pf.projectItems[k]? with
    | none => rw [hold] at hk; simp at hk
    | some old =>
      rw [hold] at hk
      simp only [Option.map_some', Option.some.injEq] at hk
      refine ⟨old, rfl, ?_, ?_, ?_⟩
      · rw [← hk]; split <;> rfl
      · rw [← hk]
        by_cases h : f = "all" ∨ f ∈ split old.dataCategory ' '
        · simp [h]
        · simp only [h, if_false, iff_false]; decide
      · rw [← hk]
        by_cases h : f = "all" ∨ f ∈ split old.dataCategory ' '
        · simp only [h, if_true, not_true_eq_false, iff_false]; decide
        · simp [h]
  · simp [clickFilter, hbtn, length_modifyAt]
  · intro j b hj
    simp only [clickFilter, hbtn, getElem?_modifyAt, List.getElem?_map] at hj
    by_cases hji : j = i
    · simp only [hji, if_true, iff_true] at hj ⊢
      rw [hbtn] at hj
      simp only [Option.map_some', Option.some.injEq] at hj
      rw [← hj]
      exact mem_classListAdd _ _
    · simp only [hji, if_false, iff_false] at hj ⊢
      cases hb : pf.filterButtons[j]? with
      | none => rw [hb] at hj; simp at hj
      | some b0 =>
        rw [hb] at hj
        simp only [Option.map_some', Option.some.injEq] at hj
        rw [← hj]
        exact not_mem_classListRemove _ _

theorem filter_click_witness :
    (clickFilter workPage 1).projectItems =
      [⟨"web design", "block", "fadeIn 0.5s ease-out"⟩, ⟨"brand", "none", ""⟩,
       ⟨"webapp", "none", ""⟩] ∧
    (∀ (j : Nat) (b : FilterButton), (clickFilter workPage 1).filterButtons[j]? = some b →
      ("active" ∈ b.classList ↔ j = 1)) := by
  have h := filter_click workPage 1 ⟨some "web", ["filter-btn"]⟩ "web" rfl rfl
  refine ⟨h.1.trans (by decide), h.2.2.2⟩

end Dotnity
